import Mathlib

/-!
Shallow embedding of the Mini-Circuits attenuator control repository
(`Attenuator.py`, `DeviceManager.py`) and verification of its
natural-language specification.

Strings from the Python source are modelled as Lean `String`s, manipulated
through their underlying `List Char`.  Python `dict` state is an association
list in which a new binding shadows older ones and lookup returns the most
recent binding, matching `dict.__setitem__` / `dict.__getitem__` as observed
through lookups (the only way the code reads the dictionary).
-/

namespace Minicircuits

/-- Python whitespace characters recognised by `str.strip` and the regex
class used by `re.split` (space, tab, newline, carriage return, vertical
tab, form feed). -/
def isPySpace (c : Char) : Bool :=
  c = ' ' || c = '\t' || c = '\n' || c = '\r' || c = Char.ofNat 11 || c = Char.ofNat 12

/-- Test whether `p` is a prefix of `s` (character lists). -/
def startsWith : List Char → List Char → Bool
  | [], _ => true
  | _ :: _, [] => false
  | p :: ps, c :: cs => p = c && startsWith ps cs

/-- Python substring containment `p in s` on character lists. -/
def containsSub (pat : List Char) : List Char → Bool
  | [] => startsWith pat []
  | c :: rest => startsWith pat (c :: rest) || containsSub pat rest

/-- Python `str.strip()`: drop leading and trailing whitespace. -/
def pyStrip (l : List Char) : List Char :=
  ((l.dropWhile isPySpace).reverse.dropWhile isPySpace).reverse

/-- Head of the list is a Python whitespace character. -/
def headIsPySpace : List Char → Bool
  | [] => false
  | c :: _ => isPySpace c

/-- Scanner for Python `re.split('[:=]|\s\s+', field)`.  A single `:` or `=`
splits; a run of two or more whitespace characters matches the greedy
`\s\s+`, splits, and is consumed whole.  `acc` holds the current token
reversed; `skip` records that the scanner is still inside a `\s\s+` match
and is consuming the remainder of the whitespace run.  An empty token is
produced between two adjacent delimiter matches, as with `re.split`. -/
def reSplitKVAux : Bool → List Char → List Char → List (List Char)
  | false, [], acc => [acc.reverse]
  | true, [], _ => [[]]
  | false, c :: rest, acc =>
    if c = ':' || c = '=' then
      acc.reverse :: reSplitKVAux false rest []
    else if isPySpace c && headIsPySpace rest then
      acc.reverse :: reSplitKVAux true rest []
    else
      reSplitKVAux false rest (c :: acc)
  | true, c :: rest, _ =>
    if isPySpace c then
      reSplitKVAux true rest []
    else if c = ':' || c = '=' then
      [] :: reSplitKVAux false rest []
    else
      reSplitKVAux false rest [c]

/-- Python `re.split('[:=]|\s\s+', field)`. -/
def reSplitKV (cs : List Char) : List (List Char) :=
  reSplitKVAux false cs []

/-- Split a character list at a separator character; `acc` holds the
current piece reversed. -/
def splitCharAux (sep : Char) : List Char → List Char → List (List Char)
  | [], acc => [acc.reverse]
  | c :: rest, acc =>
    if c = sep then acc.reverse :: splitCharAux sep rest []
    else splitCharAux sep rest (c :: acc)

/-- Python `str.splitlines()` for newline-separated payloads: the empty
string yields no lines, and a trailing newline does not produce a final
empty line. -/
def pySplitlines (s : String) : List String :=
  if s.data = [] then []
  else
    let ls := splitCharAux '\n' s.data []
    (if s.data.getLast? = some '\n' then ls.dropLast else ls).map String.mk

/-- The parsed `device_details` dictionary: keys and values are strings.
The most recent binding for a key is first. -/
def Dict := List (String × String)

/-- Python `d[k] = v`: the new binding shadows any older one. -/
def dictInsert (d : Dict) (k v : String) : Dict :=
  (k, v) :: d

/-- Python `d[k]` as an `Option`: the most recent binding for `k`. -/
def dictGet : Dict → String → Option String
  | [], _ => none
  | (k2, v) :: rest, k => if k2 = k then some v else dictGet rest k

/-- Matching of `re.match("IP Address=([\d\.]*)  Port: (\d+)", field)`,
returning the two captured groups.  The pattern anchors at the start of the
line and permits trailing text.  Greedy matching of the char classes agrees
with maximal-run scanning here because the characters that follow each class
in the pattern (a space, end of pattern) are outside the class, so no
backtracking into the class can succeed. -/
def matchIpPort (cs : List Char) : Option (List Char × List Char) :=
  if startsWith "IP Address=".data cs then
    let t := cs.drop "IP Address=".data.length
    let ip := t.takeWhile (fun c => c.isDigit || c = '.')
    let r := t.dropWhile (fun c => c.isDigit || c = '.')
    if startsWith "  Port: ".data r then
      let r2 := r.drop "  Port: ".data.length
      let port := r2.takeWhile Char.isDigit
      if port = [] then none else some (ip, port)
    else none
  else none

/-- The inner pair loop
`for i in range(0, len(split_fields), 2): d[f[i].strip()] = f[i+1].strip()`.
An odd number of tokens raises `IndexError` at `f[i+1]`, modelled as `none`;
the per-reply handler then discards the whole reply. -/
def pairsLoop : Dict → List String → Option Dict
  | d, [] => some d
  | _, [_] => none
  | d, k :: v :: rest => pairsLoop (dictInsert d k v) rest

/-- One iteration of `for field in device.splitlines()` in
`DeviceManager.discover_devices`: lines containing `IP Address` go through
the dedicated combined pattern (setting both fields on a match and nothing
otherwise); every other line is split into alternating stripped key/value
tokens. -/
def processField (d : Dict) (field : String) : Option Dict :=
  if containsSub "IP Address".data field.data then
    match matchIpPort field.data with
    | some (ip, port) =>
        some (dictInsert (dictInsert d "IP Address" (String.mk ip)) "Port" (String.mk port))
    | none => some d
  else
    pairsLoop d ((reSplitKV field.data).map (fun t => String.mk (pyStrip t)))

/-- Fold `processField` over the lines of one reply, propagating the first
failure (the `try` block covers the whole per-reply loop). -/
def foldProcess : Dict → List String → Option Dict
  | d, [] => some d
  | d, f :: rest =>
    match processField d f with
    | none => none
    | some d2 => foldProcess d2 rest

/-- A discovered device, as built by `Attenuator.__init__` from the parsed
`device_details` dictionary.  `url` is the `_url` field
`"http://%s:%s/" % (ip_address, port)` and `password` starts as `None`. -/
structure Attenuator where
  model_name : String
  serial_number : String
  ip_address : String
  port : String
  subnet_mask : String
  network_gateway : String
  mac_address : String
  url : String
  password : Option String
deriving DecidableEq

/-- `Attenuator.__init__(device_details)`: each of the seven fields is read
with `device_details[...]`; a missing key raises `KeyError`, modelled as
`none` (the order in which the lookups fail does not affect the option
result). -/
def mkAttenuator (d : Dict) : Option Attenuator :=
  match dictGet d "Model Name", dictGet d "Serial Number", dictGet d "IP Address",
        dictGet d "Port", dictGet d "Subnet Mask", dictGet d "Network Gateway",
        dictGet d "Mac Address" with
  | some mn, some sn, some ip, some pt, some sm, some gw, some mac =>
      some { model_name := mn, serial_number := sn, ip_address := ip, port := pt,
             subnet_mask := sm, network_gateway := gw, mac_address := mac,
             url := "http://" ++ ip ++ ":" ++ pt ++ "/", password := none }
  | _, _, _, _, _, _, _ => none

/-- Parsing of one broadcast reply inside the per-reply `try` block: build
the `device_details` dictionary line by line, then construct the
`Attenuator`; any raised error yields `none` and the reply is dropped. -/
def parseReply (device : String) : Option Attenuator :=
  match foldProcess [] (pySplitlines device) with
  | none => none
  | some d => mkAttenuator d

/-- The parsing half of `discover_devices`: each successfully parsed reply
contributes one descriptor, in receipt order. -/
def discoverParse (broadcast_responses : List String) : List Attenuator :=
  broadcast_responses.filterMap parseReply

/-- Control flow of `discover_devices` around `receiver_socket.bind`: the
bind happens outside every `try` block, so a bind failure propagates and
aborts the whole call; otherwise the reply list is parsed. -/
def discover_devices_run (bindReceiver : Except String Unit)
    (broadcast_responses : List String) : Except String (List Attenuator) :=
  match bindReceiver with
  | .error e => .error e
  | .ok _ => .ok (discoverParse broadcast_responses)

/-- The request handed to `urllib.request.urlopen` by `_send_http_cmd`:
the full URL and the `timeout=60` argument. -/
structure HttpRequest where
  url : String
  timeout : Nat
deriving DecidableEq

/-- `Attenuator._send_http_cmd`, up to the point where the request is
issued.  Python's `if self.password:` is false both for `None` and for the
empty string. -/
def _send_http_cmd (a : Attenuator) (command : String) : HttpRequest :=
  let http_cmd :=
    match a.password with
    | some p => if p = "" then a.url ++ command else a.url ++ p ++ ";" ++ command
    | none => a.url ++ command
  { url := http_cmd, timeout := 60 }

/-- Result of one typed setter call: either a normal return or a raised
`AttenuatorException` carrying its message. -/
inductive SetResult where
  | ok : SetResult
  | raised : String → SetResult
deriving DecidableEq

/-- `Attenuator.set_attenuation`.  Numeric parameters appear through their
`'%s'` rendering, so they are modelled as the already-formatted string;
`response` is the body returned by the device for the issued request. -/
def set_attenuation (a : Attenuator) (db : String) (response : String) :
    HttpRequest × SetResult :=
  (_send_http_cmd a (":SETATT=" ++ db),
   if response = "0" then
     .raised "Command to set Attenuation Failed"
   else if response = "2" then
     .raised ("Requested attenuation was higher than the allowed range, " ++
              "the attenuation was set to the device's maximum")
   else .ok)

/-- `Attenuator.set_startup_attenuation_value`. -/
def set_startup_attenuation_value (a : Attenuator) (db : String) (response : String) :
    HttpRequest × SetResult :=
  (_send_http_cmd a (":STARTUPATT:VALUE:" ++ db),
   if response = "0" then
     .raised "Command to set Attenuation Failed"
   else if response = "2" then
     .raised ("Requested attenuation was higher than the allowed range," ++
              "the attenuation was set to the device's maximum")
   else .ok)

/-- `Attenuator.set_startup_attenuation_mode`. -/
def set_startup_attenuation_mode (a : Attenuator) (start_mode : String) (response : String) :
    HttpRequest × SetResult :=
  (_send_http_cmd a ("STARTUPATT:INDICATOR:" ++ start_mode),
   if response ≠ "1" then .raised "Command to change attenuator startup mode failed" else .ok)

/-- `Attenuator.hop_mode_set_points`. -/
def hop_mode_set_points (a : Attenuator) (points : String) (response : String) :
    HttpRequest × SetResult :=
  (_send_http_cmd a (":HOP:POINTS:" ++ points),
   if response ≠ "1" then .raised "Command to set number of hop points failed" else .ok)

/-- `Attenuator.hop_mode_set_direction`. -/
def hop_mode_set_direction (a : Attenuator) (direction : String) (response : String) :
    HttpRequest × SetResult :=
  (_send_http_cmd a (":HOP:DIRECTION:" ++ direction),
   if response ≠ "1" then .raised "Command to set hop direction failed" else .ok)

/-- `Attenuator.hop_mode_set_indexed_point`. -/
def hop_mode_set_indexed_point (a : Attenuator) (point : String) (response : String) :
    HttpRequest × SetResult :=
  (_send_http_cmd a (":HOP:POINT:" ++ point),
   if response ≠ "1" then .raised "Command to set indexed point failed" else .ok)

/-- `Attenuator.hop_mode_set_point_dwell_time_units`. -/
def hop_mode_set_point_dwell_time_units (a : Attenuator) (units : String) (response : String) :
    HttpRequest × SetResult :=
  (_send_http_cmd a (":HOP:DWELL_UNIT:" ++ units),
   if response ≠ "1" then .raised "Command to set dwell time units failed" else .ok)

/-- `Attenuator.hop_mode_set_point_dwell_time`. -/
def hop_mode_set_point_dwell_time (a : Attenuator) (dwell_time : String) (response : String) :
    HttpRequest × SetResult :=
  (_send_http_cmd a (":HOP:DWELL:" ++ dwell_time),
   if response ≠ "1" then .raised "Command to set dwell time failed" else .ok)

/-- `Attenuator.hop_mode_set_point_attenuation`. -/
def hop_mode_set_point_attenuation (a : Attenuator) (db : String) (response : String) :
    HttpRequest × SetResult :=
  (_send_http_cmd a (":HOP:ATT:" ++ db),
   if response ≠ "1" then .raised "Command to set point attenuation failed" else .ok)

/-- `Attenuator.set_hop_mode`. -/
def set_hop_mode (a : Attenuator) (mode : String) (response : String) :
    HttpRequest × SetResult :=
  (_send_http_cmd a (":HOP:MODE:" ++ mode),
   if response ≠ "1" then .raised "Command to set hop mode failed" else .ok)

/-- `Attenuator.sweep_mode_set_sweep_direction`. -/
def sweep_mode_set_sweep_direction (a : Attenuator) (direction : String) (response : String) :
    HttpRequest × SetResult :=
  (_send_http_cmd a (":SWEEP:DIRECTION:" ++ direction),
   if response ≠ "1" then .raised "Command to set sweep direction failed" else .ok)

/-- `Attenuator.sweep_mode_set_dwell_time_units`. -/
def sweep_mode_set_dwell_time_units (a : Attenuator) (units : String) (response : String) :
    HttpRequest × SetResult :=
  (_send_http_cmd a (":SWEEP:DWELL_UNIT:" ++ units),
   if response ≠ "1" then .raised "Command to set sweep dwell time units failed" else .ok)

/-- `Attenuator.sweep_mode_set_dwell_time`. -/
def sweep_mode_set_dwell_time (a : Attenuator) (dwell_time : String) (response : String) :
    HttpRequest × SetResult :=
  (_send_http_cmd a (":SWEEP:DWELL:" ++ dwell_time),
   if response ≠ "1" then .raised "Command to set sweep dwell time failed" else .ok)

/-- `Attenuator.sweep_mode_set_start_attenuation`. -/
def sweep_mode_set_start_attenuation (a : Attenuator) (db : String) (response : String) :
    HttpRequest × SetResult :=
  (_send_http_cmd a (":SWEEP:START:" ++ db),
   if response ≠ "1" then .raised "Command to set sweep start attenuation failed" else .ok)

/-- `Attenuator.sweep_mode_set_stop_attenuation`. -/
def sweep_mode_set_stop_attenuation (a : Attenuator) (db : String) (response : String) :
    HttpRequest × SetResult :=
  (_send_http_cmd a (":SWEEP:STOP:" ++ db),
   if response ≠ "1" then .raised "Command to set sweep stop attenuation failed" else .ok)

/-- `Attenuator.sweep_mode_set_step_size`. -/
def sweep_mode_set_step_size (a : Attenuator) (db : String) (response : String) :
    HttpRequest × SetResult :=
  (_send_http_cmd a (":SWEEP:STEPSIZE:" ++ db),
   if response ≠ "1" then .raised "Command to set sweep step size failed" else .ok)

/-- `Attenuator.set_sweep_mode`. -/
def set_sweep_mode (a : Attenuator) (mode : String) (response : String) :
    HttpRequest × SetResult :=
  (_send_http_cmd a (":SWEEP:MODE:" ++ mode),
   if response ≠ "1" then .raised "Command to set sweep mode failed" else .ok)

/-- The socket operations performed by `discover_devices`, in program
order, up to the receive loop. -/
inductive SocketOp where
  | createBroadcastSocket : SocketOp
  | bindBroadcastSocket : SocketOp
  | setBroadcastOption : SocketOp
  | sendBroadcastQuery : SocketOp
  | createReceiverSocket : SocketOp
  | bindReceiverPort : SocketOp
  | receiveLoop : SocketOp
deriving DecidableEq

/-- Trace of socket operations in `discover_devices`: create and bind the
broadcast socket, set `SO_BROADCAST`, send `MCLDAT?\n` to port 4950, then
create the receiver socket, bind it to port 4951, and run the receive
loop. -/
def discoverSocketTrace : List SocketOp :=
  [.createBroadcastSocket, .bindBroadcastSocket, .setBroadcastOption,
   .sendBroadcastQuery, .createReceiverSocket, .bindReceiverPort, .receiveLoop]

/-- Decimal value of a digit string. -/
def decimalValue (cs : List Char) : Nat :=
  cs.foldl (fun n c => 10 * n + (c.toNat - '0'.toNat)) 0

/-- Modelled from the spec: a well-formed IPv4 text is four dot-separated
decimal components, each a nonempty digit string with value at most 255. -/
def isValidIPv4 (s : String) : Bool :=
  let parts := splitCharAux '.' s.data []
  parts.length == 4 &&
    parts.all (fun p => !p.isEmpty && p.all Char.isDigit && decimalValue p ≤ 255)

/-- Modelled from the spec: a port string round-trips to an integer exactly
when it is a nonempty digit string (the only shape Python's `int` accepts
among the strings produced here). -/
def portRoundTrips (s : String) : Bool :=
  !s.data.isEmpty && s.data.all Char.isDigit

/-- A broadcast reply in the documented format; every line parses and all
seven required fields are present. -/
def validReply : String :=
  "Model Name: RUDAT-6000-30\nSerial Number: 11903230001\nIP Address=10.0.0.5  Port: 4951\nSubnet Mask: 255.255.255.0\nNetwork Gateway: 10.0.0.1\nMac Address: D0FA11223344"

/-- The descriptor built from `validReply`. -/
def validAtt : Attenuator :=
  { model_name := "RUDAT-6000-30", serial_number := "11903230001",
    ip_address := "10.0.0.5", port := "4951", subnet_mask := "255.255.255.0",
    network_gateway := "10.0.0.1", mac_address := "D0FA11223344",
    url := "http://10.0.0.5:4951/", password := none }

/-- A malformed reply: it parses as key/value text but lacks most of the
required fields, so the descriptor constructor fails. -/
def malformedReply : String := "Serial Number: 1"

/-- The valid reply with its `Subnet Mask` line removed. -/
def replyMissingSubnet : String :=
  "Model Name: RUDAT-6000-30\nSerial Number: 11903230001\nIP Address=10.0.0.5  Port: 4951\nNetwork Gateway: 10.0.0.1\nMac Address: D0FA11223344"

/-- A reply whose combined IP/Port line carries `.` as the IP address text;
the extraction pattern `[\d\.]*` accepts it. -/
def dotIpReply : String :=
  "Model Name: M1\nSerial Number: 1\nIP Address=.  Port: 80\nSubnet Mask: 255.255.255.0\nNetwork Gateway: 10.0.0.1\nMac Address: AABB"

/-- A reply with a generic `Port: x9` line after the combined IP/Port line;
the generic key/value pass overwrites the `Port` field with non-numeric
text. -/
def portOverwriteReply : String :=
  "Model Name: M1\nSerial Number: 1\nIP Address=10.0.0.5  Port: 80\nSubnet Mask: 255.255.255.0\nNetwork Gateway: 10.0.0.1\nMac Address: AABB\nPort: x9"

/-- A command session over `validAtt` whose password attribute has been
assigned the empty string. -/
def emptyPasswordSession : Attenuator := { validAtt with password := some "" }

/-- A command session over `validAtt` with password `ABC`. -/
def abcPasswordSession : Attenuator := { validAtt with password := some "ABC" }

lemma parseReply_validReply : parseReply validReply = some validAtt := by decide

lemma parseReply_malformedReply : parseReply malformedReply = none := by decide

/-- C1: for `set_attenuation` and `set_startup_attenuation_value`, response
`"0"` raises the command-rejected exception, response `"2"` raises the
value-clamped exception, and any other response returns normally. -/
theorem attenuation_setter_return_codes :
    ∀ (a : Attenuator) (db response : String),
      ((set_attenuation a db response).2 =
          SetResult.raised "Command to set Attenuation Failed" ↔ response = "0") ∧
      ((set_attenuation a db response).2 =
          SetResult.raised ("Requested attenuation was higher than the allowed range, " ++
            "the attenuation was set to the device's maximum") ↔ response = "2") ∧
      ((set_attenuation a db response).2 = SetResult.ok ↔
          (response ≠ "0" ∧ response ≠ "2")) ∧
      ((set_startup_attenuation_value a db response).2 =
          SetResult.raised "Command to set Attenuation Failed" ↔ response = "0") ∧
      ((set_startup_attenuation_value a db response).2 =
          SetResult.raised ("Requested attenuation was higher than the allowed range," ++
            "the attenuation was set to the device's maximum") ↔ response = "2") ∧
      ((set_startup_attenuation_value a db response).2 = SetResult.ok ↔
          (response ≠ "0" ∧ response ≠ "2")) := by
  intro a db response
  by_cases h0 : response = "0"
  · subst h0
    simp [set_attenuation, set_startup_attenuation_value]
  · by_cases h2 : response = "2"
    · subst h2
      simp [set_attenuation, set_startup_attenuation_value]
    · simp [set_attenuation, set_startup_attenuation_value, h0, h2]

/-- C2: every discrete-setting operation returns normally exactly when the
response is `"1"` and raises its command-rejected exception exactly when it
is not. -/
theorem discrete_setter_return_codes :
    ∀ (a : Attenuator) (v response : String),
      ((set_startup_attenuation_mode a v response).2 = SetResult.ok ↔ response = "1") ∧
      ((set_startup_attenuation_mode a v response).2 =
          SetResult.raised "Command to change attenuator startup mode failed" ↔ response ≠ "1") ∧
      ((hop_mode_set_points a v response).2 = SetResult.ok ↔ response = "1") ∧
      ((hop_mode_set_points a v response).2 =
          SetResult.raised "Command to set number of hop points failed" ↔ response ≠ "1") ∧
      ((hop_mode_set_direction a v response).2 = SetResult.ok ↔ response = "1") ∧
      ((hop_mode_set_direction a v response).2 =
          SetResult.raised "Command to set hop direction failed" ↔ response ≠ "1") ∧
      ((hop_mode_set_indexed_point a v response).2 = SetResult.ok ↔ response = "1") ∧
      ((hop_mode_set_indexed_point a v response).2 =
          SetResult.raised "Command to set indexed point failed" ↔ response ≠ "1") ∧
      ((hop_mode_set_point_dwell_time_units a v response).2 = SetResult.ok ↔ response = "1") ∧
      ((hop_mode_set_point_dwell_time_units a v response).2 =
          SetResult.raised "Command to set dwell time units failed" ↔ response ≠ "1") ∧
      ((hop_mode_set_point_dwell_time a v response).2 = SetResult.ok ↔ response = "1") ∧
      ((hop_mode_set_point_dwell_time a v response).2 =
          SetResult.raised "Command to set dwell time failed" ↔ response ≠ "1") ∧
      ((hop_mode_set_point_attenuation a v response).2 = SetResult.ok ↔ response = "1") ∧
      ((hop_mode_set_point_attenuation a v response).2 =
          SetResult.raised "Command to set point attenuation failed" ↔ response ≠ "1") ∧
      ((set_hop_mode a v response).2 = SetResult.ok ↔ response = "1") ∧
      ((set_hop_mode a v response).2 =
          SetResult.raised "Command to set hop mode failed" ↔ response ≠ "1") ∧
      ((sweep_mode_set_sweep_direction a v response).2 = SetResult.ok ↔ response = "1") ∧
      ((sweep_mode_set_sweep_direction a v response).2 =
          SetResult.raised "Command to set sweep direction failed" ↔ response ≠ "1") ∧
      ((sweep_mode_set_dwell_time_units a v response).2 = SetResult.ok ↔ response = "1") ∧
      ((sweep_mode_set_dwell_time_units a v response).2 =
          SetResult.raised "Command to set sweep dwell time units failed" ↔ response ≠ "1") ∧
      ((sweep_mode_set_dwell_time a v response).2 = SetResult.ok ↔ response = "1") ∧
      ((sweep_mode_set_dwell_time a v response).2 =
          SetResult.raised "Command to set sweep dwell time failed" ↔ response ≠ "1") ∧
      ((sweep_mode_set_start_attenuation a v response).2 = SetResult.ok ↔ response = "1") ∧
      ((sweep_mode_set_start_attenuation a v response).2 =
          SetResult.raised "Command to set sweep start attenuation failed" ↔ response ≠ "1") ∧
      ((sweep_mode_set_stop_attenuation a v response).2 = SetResult.ok ↔ response = "1") ∧
      ((sweep_mode_set_stop_attenuation a v response).2 =
          SetResult.raised "Command to set sweep stop attenuation failed" ↔ response ≠ "1") ∧
      ((sweep_mode_set_step_size a v response).2 = SetResult.ok ↔ response = "1") ∧
      ((sweep_mode_set_step_size a v response).2 =
          SetResult.raised "Command to set sweep step size failed" ↔ response ≠ "1") ∧
      ((set_sweep_mode a v response).2 = SetResult.ok ↔ response = "1") ∧
      ((set_sweep_mode a v response).2 =
          SetResult.raised "Command to set sweep mode failed" ↔ response ≠ "1") := by
  intro a v response
  by_cases h : response = "1" <;>
    simp [set_startup_attenuation_mode, hop_mode_set_points, hop_mode_set_direction,
      hop_mode_set_indexed_point, hop_mode_set_point_dwell_time_units,
      hop_mode_set_point_dwell_time, hop_mode_set_point_attenuation, set_hop_mode,
      sweep_mode_set_sweep_direction, sweep_mode_set_dwell_time_units,
      sweep_mode_set_dwell_time, sweep_mode_set_start_attenuation,
      sweep_mode_set_stop_attenuation, sweep_mode_set_step_size, set_sweep_mode, h]

/-- C4 counterexample: with the password attribute set to the empty string,
a password is configured, yet `if self.password:` is false and the issued
URL is the bare command appended to the base URL rather than
`<password>;<command>`. -/
theorem empty_password_breaks_wire_claim :
    (_send_http_cmd emptyPasswordSession ":ATT?").url = "http://10.0.0.5:4951/:ATT?" ∧
    ("http://10.0.0.5:4951/:ATT?" : String) ≠
      "http://10.0.0.5:4951/" ++ "" ++ ";" ++ ":ATT?" := by
  exact ⟨by decide, by decide⟩

/-- C4 amended: every request carries a 60-second timeout; a configured
nonempty password `p` yields URL `base ++ p ++ ";" ++ command`; no password
or an empty password yields `base ++ command`; and a descriptor built from
parsed details has base URL `http://<ip>:<port>/`. -/
theorem wire_construction :
    ∀ (a : Attenuator) (command : String),
      (_send_http_cmd a command).timeout = 60 ∧
      (∀ p, a.password = some p → p ≠ "" →
        (_send_http_cmd a command).url = a.url ++ p ++ ";" ++ command) ∧
      (a.password = none ∨ a.password = some "" →
        (_send_http_cmd a command).url = a.url ++ command) ∧
      (∀ (d : Dict) (b : Attenuator), mkAttenuator d = some b →
        b.url = "http://" ++ b.ip_address ++ ":" ++ b.port ++ "/") := by
  intro a command
  refine ⟨rfl, ?_, ?_, ?_⟩
  · intro p hp hne
    simp [_send_http_cmd, hp, hne]
  · intro hcase
    rcases hcase with h | h <;> simp [_send_http_cmd, h]
  · intro d b hb
    unfold mkAttenuator at hb
    split at hb
    · simp only [Option.some.injEq] at hb
      subst hb
      rfl
    · exact absurd hb (by simp)

/-- C4 witness: the spec example — password `ABC` and command `:ATT?` issue
path `ABC;:ATT?` with a 60-second timeout. -/
theorem wire_construction_witness :
    (_send_http_cmd abcPasswordSession ":ATT?").timeout = 60 ∧
    (_send_http_cmd abcPasswordSession ":ATT?").url =
      abcPasswordSession.url ++ "ABC" ++ ";" ++ ":ATT?" :=
  ⟨(wire_construction abcPasswordSession ":ATT?").1,
   (wire_construction abcPasswordSession ":ATT?").2.1 "ABC" rfl (by decide)⟩

/-- C7 counterexample: in the socket-operation trace of `discover_devices`
the broadcast query is sent strictly before the receive socket is bound to
port 4951, so the bind does not happen no later than the send. -/
theorem bind_after_send_counterexample :
    discoverSocketTrace.indexOf SocketOp.sendBroadcastQuery = 3 ∧
    discoverSocketTrace.indexOf SocketOp.bindReceiverPort = 5 ∧
    ¬ discoverSocketTrace.indexOf SocketOp.bindReceiverPort ≤
        discoverSocketTrace.indexOf SocketOp.sendBroadcastQuery := by
  exact ⟨by decide, by decide, by decide⟩

/-- C7 amended: the receive socket is created and bound immediately after
the broadcast send (no other operation than the socket creation stands
between them) and before the receive loop begins. -/
theorem bind_between_send_and_receive :
    discoverSocketTrace.indexOf SocketOp.sendBroadcastQuery <
      discoverSocketTrace.indexOf SocketOp.bindReceiverPort ∧
    discoverSocketTrace.indexOf SocketOp.bindReceiverPort =
      discoverSocketTrace.indexOf SocketOp.sendBroadcastQuery + 2 ∧
    discoverSocketTrace.indexOf SocketOp.createReceiverSocket =
      discoverSocketTrace.indexOf SocketOp.sendBroadcastQuery + 1 ∧
    discoverSocketTrace.indexOf SocketOp.bindReceiverPort <
      discoverSocketTrace.indexOf SocketOp.receiveLoop := by
  exact ⟨by decide, by decide, by decide, by decide⟩

/-- C8: a failure of `receiver_socket.bind` propagates out of the whole
`discover_devices` call, an outcome distinct from the empty-list result for
no devices found; the per-reply handler cannot suppress it because the bind
stands outside every `try` block. -/
theorem bind_failure_aborts_discovery :
    ∀ (e : String) (responses : List String),
      discover_devices_run (.error e) responses = .error e ∧
      discover_devices_run (.error e) responses ≠ .ok [] ∧
      discover_devices_run (.ok ()) [] = .ok [] := by
  intro e responses
  exact ⟨rfl, by simp [discover_devices_run], rfl⟩

/-- C9: discovery returns one descriptor per successfully parsed reply, in
receipt order; descriptors sharing a serial number are not deduplicated;
and zero replies yield the empty list, not an error. -/
theorem discovery_returns_one_descriptor_per_reply :
    discover_devices_run (.ok ()) [] = .ok [] ∧
    (∀ (rs : List String) (r : String) (a : Attenuator), parseReply r = some a →
      discoverParse (rs ++ [r]) = discoverParse rs ++ [a]) ∧
    (discoverParse [validReply, validReply]).map (fun a => a.serial_number) =
      ["11903230001", "11903230001"] := by
  refine ⟨rfl, ?_, ?_⟩
  · intro rs r a ha
    simp [discoverParse, ha]
  · simp [discoverParse, List.filterMap, parseReply_validReply, validAtt]

/-- C9 witness: appending the concrete valid reply to an empty reply list
appends exactly its descriptor. -/
theorem discovery_returns_one_descriptor_per_reply_witness :
    discoverParse ([] ++ [validReply]) = discoverParse [] ++ [validAtt] :=
  discovery_returns_one_descriptor_per_reply.2.1 [] validReply validAtt
    parseReply_validReply

lemma discoverParse_length_of_all_parse :
    ∀ (l : List String), (∀ x ∈ l, (parseReply x).isSome = true) →
      (discoverParse l).length = l.length := by
  intro l
  induction l with
  | nil => intro _; rfl
  | cons x xs ih =>
    intro h
    obtain ⟨a, ha⟩ := Option.isSome_iff_exists.mp (h x (by simp))
    have hxs := ih (fun y hy => h y (by simp [hy]))
    simp only [discoverParse, List.filterMap_cons, ha, List.length_cons]
    simp only [discoverParse] at hxs
    omega

/-- C5: replies are parsed independently: a reply that fails to parse is
dropped alone, and one malformed reply among parseable ones yields exactly
one descriptor per parseable reply. -/
theorem malformed_reply_dropped_independently :
    ∀ (pre post : List String) (bad : String),
      (∀ x ∈ pre, (parseReply x).isSome = true) →
      (∀ x ∈ post, (parseReply x).isSome = true) →
      parseReply bad = none →
      discoverParse (pre ++ bad :: post) = discoverParse pre ++ discoverParse post ∧
      (discoverParse (pre ++ bad :: post)).length = pre.length + post.length := by
  intro pre post bad hpre hpost hbad
  have h1 : discoverParse (pre ++ bad :: post) = discoverParse pre ++ discoverParse post := by
    simp [discoverParse, List.filterMap_cons, hbad]
  refine ⟨h1, ?_⟩
  rw [h1, List.length_append, discoverParse_length_of_all_parse pre hpre,
    discoverParse_length_of_all_parse post hpost]

/-- C5 witness: one malformed reply between a valid reply and nothing
yields exactly the valid reply's descriptor. -/
theorem malformed_reply_dropped_independently_witness :
    discoverParse ([validReply] ++ malformedReply :: []) =
      discoverParse [validReply] ++ discoverParse [] ∧
    (discoverParse ([validReply] ++ malformedReply :: [])).length =
      [validReply].length + ([] : List String).length :=
  malformed_reply_dropped_independently [validReply] [] malformedReply
    (by decide) (by decide) parseReply_malformedReply

/-- C10: constructing a descriptor requires all seven fields; a reply
missing any one of them (here `Subnet Mask`) fails inside the per-reply
boundary and is dropped from the results. -/
theorem descriptor_requires_all_seven_fields :
    (∀ d : Dict, (mkAttenuator d).isSome = true ↔
      ((dictGet d "Model Name").isSome = true ∧
       (dictGet d "Serial Number").isSome = true ∧
       (dictGet d "IP Address").isSome = true ∧
       (dictGet d "Port").isSome = true ∧
       (dictGet d "Subnet Mask").isSome = true ∧
       (dictGet d "Network Gateway").isSome = true ∧
       (dictGet d "Mac Address").isSome = true)) ∧
    parseReply replyMissingSubnet = none ∧
    discoverParse [validReply, replyMissingSubnet] = discoverParse [validReply] := by
  refine ⟨?_, by decide, by decide⟩
  intro d
  unfold mkAttenuator
  cases h1 : dictGet d "Model Name" <;>
    cases h2 : dictGet d "Serial Number" <;>
    cases h3 : dictGet d "IP Address" <;>
    cases h4 : dictGet d "Port" <;>
    cases h5 : dictGet d "Subnet Mask" <;>
    cases h6 : dictGet d "Network Gateway" <;>
    cases h7 : dictGet d "Mac Address" <;>
    simp

/-- C6: a line matching the dedicated combined pattern yields both the
`IP Address` and `Port` fields from that one line; the full round-trip on a
reply containing `IP Address=10.0.0.5  Port: 4951` produces descriptor
fields `10.0.0.5` and `4951`; and every line not containing `IP Address` is
split on `:`, `=` or runs of two-or-more spaces into alternating key/value
tokens, each trimmed, as shown on one example per delimiter kind. -/
theorem combined_ip_port_line_and_generic_split :
    (∀ d : Dict, processField d "IP Address=10.0.0.5  Port: 4951" =
      some (dictInsert (dictInsert d "IP Address" "10.0.0.5") "Port" "4951")) ∧
    (parseReply validReply).map (fun a => (a.ip_address, a.port)) =
      some ("10.0.0.5", "4951") ∧
    (∀ (d : Dict) (field : String), containsSub "IP Address".data field.data = false →
      processField d field =
        pairsLoop d ((reSplitKV field.data).map (fun t => String.mk (pyStrip t)))) ∧
    (∀ d : Dict, processField d "Subnet Mask: 255.255.255.0" =
      some (dictInsert d "Subnet Mask" "255.255.255.0")) ∧
    (∀ d : Dict, processField d "Serial Number=SN123" =
      some (dictInsert d "Serial Number" "SN123")) ∧
    (∀ d : Dict, processField d "Mac Address  D0FA11223344" =
      some (dictInsert d "Mac Address" "D0FA11223344")) := by
  refine ⟨fun d => rfl, by decide, ?_, fun d => rfl, fun d => rfl, fun d => rfl⟩
  intro d field h
  simp [processField, h]

/-- C6 witness: the generic-split equation applied to a concrete line
without the `IP Address` substring. -/
theorem combined_ip_port_line_and_generic_split_witness :
    processField ([] : Dict) "Network Gateway: 10.0.0.1" =
      pairsLoop ([] : Dict)
        ((reSplitKV ("Network Gateway: 10.0.0.1" : String).data).map
          (fun t => String.mk (pyStrip t))) :=
  combined_ip_port_line_and_generic_split.2.2.1 ([] : Dict)
    "Network Gateway: 10.0.0.1" (by decide)

lemma startsWith_append (p t : List Char) : startsWith p (p ++ t) = true := by
  induction p with
  | nil => rfl
  | cons c ps ih => simp [startsWith, ih]

lemma containsSub_of_sub :
    ∀ (x p y s : List Char), s = x ++ p ++ y → containsSub p s = true := by
  intro x
  induction x with
  | nil =>
    intro p y s hs
    simp only [List.nil_append] at hs
    subst hs
    cases p with
    | nil =>
      cases y with
      | nil => rfl
      | cons c r => simp [containsSub, startsWith]
    | cons c ps =>
      show containsSub (c :: ps) (c :: (ps ++ y)) = true
      have h := startsWith_append (c :: ps) y
      simp only [List.cons_append] at h
      simp [containsSub, h]
  | cons c xs ih =>
    intro p y s hs
    subst hs
    have h := ih p y (xs ++ p ++ y) rfl
    show (startsWith p (c :: (xs ++ p ++ y)) || containsSub p (xs ++ p ++ y)) = true
    rw [h, Bool.or_true]

lemma pyStrip_sub (l : List Char) : ∃ x y, l = x ++ pyStrip l ++ y := by
  obtain ⟨x, hx⟩ := List.dropWhile_suffix (l := l) isPySpace
  obtain ⟨z, hz⟩ := List.dropWhile_suffix (l := (l.dropWhile isPySpace).reverse) isPySpace
  refine ⟨x, z.reverse, ?_⟩
  have h1 : l.dropWhile isPySpace = pyStrip l ++ z.reverse := by
    have := congrArg List.reverse hz
    simpa [pyStrip, List.reverse_append] using this.symm
  conv_lhs => rw [← hx, h1]
  simp [List.append_assoc]

lemma reSplitKVAux_token_sub :
    ∀ (skip : Bool) (cs acc t : List Char),
      t ∈ reSplitKVAux skip cs acc → ∃ x y, acc.reverse ++ cs = x ++ t ++ y := by
  intro skip cs acc
  induction skip, cs, acc using reSplitKVAux.induct with
  | case1 acc =>
    intro t ht
    simp only [reSplitKVAux, List.mem_singleton] at ht
    exact ⟨[], [], by simp [ht]⟩
  | case2 x =>
    intro t ht
    simp only [reSplitKVAux, List.mem_singleton] at ht
    exact ⟨x.reverse, [], by simp [ht]⟩
  | case3 c rest acc hdelim ih =>
    intro t ht
    simp only [reSplitKVAux] at ht
    rw [if_pos hdelim] at ht
    rw [List.mem_cons] at ht
    rcases ht with h | h
    · exact ⟨[], c :: rest, by simp [h]⟩
    · obtain ⟨x, y, hxy⟩ := ih t h
      simp only [List.reverse_nil, List.nil_append] at hxy
      exact ⟨acc.reverse ++ c :: x, y, by simp [hxy, List.append_assoc]⟩
  | case4 c rest acc hdelim hsp ih =>
    intro t ht
    simp only [reSplitKVAux] at ht
    rw [if_neg hdelim, if_pos hsp] at ht
    rw [List.mem_cons] at ht
    rcases ht with h | h
    · exact ⟨[], c :: rest, by simp [h]⟩
    · obtain ⟨x, y, hxy⟩ := ih t h
      simp only [List.reverse_nil, List.nil_append] at hxy
      exact ⟨acc.reverse ++ c :: x, y, by simp [hxy, List.append_assoc]⟩
  | case5 c rest acc hdelim hsp ih =>
    intro t ht
    simp only [reSplitKVAux] at ht
    rw [if_neg hdelim, if_neg hsp] at ht
    obtain ⟨x, y, hxy⟩ := ih t ht
    refine ⟨x, y, ?_⟩
    simpa [List.append_assoc] using hxy
  | case6 c rest x hsp ih =>
    intro t ht
    simp only [reSplitKVAux] at ht
    rw [if_pos hsp] at ht
    obtain ⟨u, y, huy⟩ := ih t ht
    simp only [List.reverse_nil, List.nil_append] at huy
    exact ⟨x.reverse ++ c :: u, y, by simp [huy, List.append_assoc]⟩
  | case7 c rest x hsp hdelim ih =>
    intro t ht
    simp only [reSplitKVAux] at ht
    rw [if_neg hsp, if_pos hdelim] at ht
    rw [List.mem_cons] at ht
    rcases ht with h | h
    · exact ⟨x.reverse ++ c :: rest, [], by simp [h]⟩
    · obtain ⟨u, y, huy⟩ := ih t h
      simp only [List.reverse_nil, List.nil_append] at huy
      exact ⟨x.reverse ++ c :: u, y, by simp [huy, List.append_assoc]⟩
  | case8 c rest x hsp hdelim ih =>
    intro t ht
    simp only [reSplitKVAux] at ht
    rw [if_neg hsp, if_neg hdelim] at ht
    obtain ⟨u, y, huy⟩ := ih t ht
    simp only [List.reverse_cons, List.nil_append] at huy
    refine ⟨x.reverse ++ u, y, ?_⟩
    have : x.reverse ++ ([c] ++ rest) = x.reverse ++ (u ++ t ++ y) := by
      rw [← huy]; rfl
    simpa [List.append_assoc] using this

lemma reSplitKV_token_sub (cs t : List Char) (h : t ∈ reSplitKV cs) :
    ∃ x y, cs = x ++ t ++ y := by
  have := reSplitKVAux_token_sub false cs [] t h
  simpa using this

lemma generic_token_ne_ip (field : String)
    (h : containsSub "IP Address".data field.data = false) :
    ∀ t ∈ (reSplitKV field.data).map (fun t => String.mk (pyStrip t)),
      t ≠ "IP Address" := by
  intro t ht heq
  obtain ⟨tok, htok, rfl⟩ := List.mem_map.mp ht
  have hdata : pyStrip tok = "IP Address".data := by
    have := congrArg String.data heq
    simpa using this
  obtain ⟨x, y, hxy⟩ := pyStrip_sub tok
  obtain ⟨u, v, huv⟩ := reSplitKV_token_sub field.data tok htok
  have : field.data = (u ++ x) ++ "IP Address".data ++ (y ++ v) := by
    rw [huv, hxy, hdata]
    simp [List.append_assoc]
  rw [containsSub_of_sub (u ++ x) "IP Address".data (y ++ v) field.data this] at h
  exact absurd h (by decide)

/-- The character class of the IP capture group `[\d\.]*`. -/
def isIpChar (c : Char) : Bool := c.isDigit || c = '.'

/-- Invariant of the `device_details` dictionary: any value stored under
`IP Address` consists of digits and periods only. -/
def IpOk (d : Dict) : Prop :=
  ∀ v, dictGet d "IP Address" = some v → v.data.all isIpChar = true

lemma matchIpPort_class (cs ip port : List Char)
    (h : matchIpPort cs = some (ip, port)) : ip.all isIpChar = true := by
  unfold matchIpPort at h
  split at h
  · simp only [] at h
    split at h
    · split at h
      · exact Option.noConfusion h
      · simp only [Option.some.injEq, Prod.mk.injEq] at h
        rw [← h.1]
        exact List.all_takeWhile
    · exact Option.noConfusion h
  · exact Option.noConfusion h

lemma pairsLoop_preserves_ipOk :
    ∀ (d : Dict) (toks : List String),
      (∀ t ∈ toks, t ≠ "IP Address") →
      ∀ d2, pairsLoop d toks = some d2 → IpOk d → IpOk d2 := by
  intro d toks
  induction d, toks using pairsLoop.induct with
  | case1 d =>
    intro _ d2 h hip
    cases h
    exact hip
  | case2 d k =>
    intro _ d2 h
    exact absurd h (by simp [pairsLoop])
  | case3 d k v rest ih =>
    intro hne d2 h hip
    refine ih (fun t ht => hne t (by simp [ht])) d2 h ?_
    intro w hw
    have hk : k ≠ "IP Address" := hne k (by simp)
    rw [dictInsert] at hw
    simp only [dictGet, if_neg hk] at hw
    exact hip w hw

lemma processField_preserves_ipOk (d d2 : Dict) (field : String)
    (h : processField d field = some d2) (hip : IpOk d) : IpOk d2 := by
  unfold processField at h
  by_cases hc : containsSub "IP Address".data field.data = true
  · rw [if_pos hc] at h
    cases hm : matchIpPort field.data with
    | none =>
      rw [hm] at h
      cases h
      exact hip
    | some pr =>
      obtain ⟨ip, port⟩ := pr
      rw [hm] at h
      simp only [Option.some.injEq] at h
      subst h
      intro v hv
      have hne : ("Port" : String) ≠ "IP Address" := by decide
      simp only [dictInsert, dictGet, if_neg hne, if_pos rfl] at hv
      cases hv
      simpa using matchIpPort_class field.data ip port hm
  · rw [if_neg hc] at h
    have hfalse : containsSub "IP Address".data field.data = false :=
      Bool.not_eq_true _ ▸ Bool.of_not_eq_true hc
    exact pairsLoop_preserves_ipOk d _ (generic_token_ne_ip field hfalse) d2 h hip

lemma foldProcess_preserves_ipOk :
    ∀ (lines : List String) (d d2 : Dict),
      foldProcess d lines = some d2 → IpOk d → IpOk d2 := by
  intro lines
  induction lines with
  | nil =>
    intro d d2 h hip
    cases h
    exact hip
  | cons f rest ih =>
    intro d d2 h hip
    unfold foldProcess at h
    cases hf : processField d f with
    | none => rw [hf] at h; cases h
    | some dmid =>
      rw [hf] at h
      exact ih dmid d2 h (processField_preserves_ipOk d dmid f hf hip)

lemma mkAttenuator_ip (d : Dict) (a : Attenuator) (h : mkAttenuator d = some a) :
    dictGet d "IP Address" = some a.ip_address := by
  unfold mkAttenuator at h
  cases h1 : dictGet d "Model Name" <;> rw [h1] at h <;>
    cases h2 : dictGet d "Serial Number" <;> rw [h2] at h <;>
    cases h3 : dictGet d "IP Address" <;> rw [h3] at h <;>
    cases h4 : dictGet d "Port" <;> rw [h4] at h <;>
    cases h5 : dictGet d "Subnet Mask" <;> rw [h5] at h <;>
    cases h6 : dictGet d "Network Gateway" <;> rw [h6] at h <;>
    cases h7 : dictGet d "Mac Address" <;> rw [h7] at h <;>
    simp_all
  rw [← h]

/-- C3 counterexample: discovery constructs a descriptor whose IP address
text `.` is not well-formed IPv4, and a descriptor whose port text `x9`
does not round-trip to an integer. -/
theorem discovery_wellformedness_counterexample :
    (discoverParse [dotIpReply]).map (fun a => a.ip_address) = ["."] ∧
    isValidIPv4 "." = false ∧
    (discoverParse [portOverwriteReply]).map (fun a => a.port) = ["x9"] ∧
    portRoundTrips "x9" = false :=
  ⟨by decide, by decide, by decide, by decide⟩

/-- C3 amended: both fields are always present on a constructed descriptor
(they are looked up during construction), and the IP address text always
consists of digits and periods only — matching the extraction pattern
`[\d\.]*` — but need not be a well-formed IPv4 address; the port text can
be overwritten by a later generic key/value line and so need not round-trip
to an integer. -/
theorem descriptor_ip_shape :
    ∀ (responses : List String) (a : Attenuator), a ∈ discoverParse responses →
      a.ip_address.data.all isIpChar = true := by
  intro responses a ha
  rw [discoverParse] at ha
  obtain ⟨r, _, hr⟩ := List.mem_filterMap.mp ha
  unfold parseReply at hr
  cases hd : foldProcess [] (pySplitlines r) with
  | none => rw [hd] at hr; cases hr
  | some d =>
    rw [hd] at hr
    have hip : IpOk d :=
      foldProcess_preserves_ipOk (pySplitlines r) [] d hd
        (by intro v hv; exact absurd hv (by simp [dictGet]))
    exact hip a.ip_address (mkAttenuator_ip d a hr)

/-- C3 amended witness: the descriptor of the concrete valid reply has an
IP address made only of digits and periods. -/
theorem descriptor_ip_shape_witness :
    validAtt.ip_address.data.all isIpChar = true :=
  descriptor_ip_shape [validReply] validAtt (by decide)

end Minicircuits
